import Mathlib

/-!
Verification of the CE224.Q11 People Counting system against its
natural-language specification.

The development shallowly embeds the relevant parts of the source:
* the ESP32-CAM firmware's CSI capture/send path and WebSocket text
  message handler (edge_side/camera/main/main.c, CSI-enabled variant);
* the Next.js dashboard's statistics and history logic
  (server_side/frontend/src/components/StatsPanel.tsx,
  server_side/frontend/src/app/page.tsx);
* the live-stream client (LiveVideoStream.tsx);
* the fusion engine contract (modelled from the spec, since the edge
  fusion server itself is not among the available sources).

Machine integers are modelled as `Int`/`Nat`; real-valued quantities
(confidences, weights) as `ℚ`, which is exact where the source uses
floating point.
-/

namespace PeopleCounting

/-! ## Firmware CSI state (src/unnamed/part_001, main.c)

`csi_data_buffer` is a 256-byte (`CSI_BUFFER_SIZE * 2`) array of
`int8_t`; `csi_data_len`, `csi_timestamp`, `csi_rssi` are the scalars
written by the CSI receive callback under `csi_mutex`.  The buffer is
modelled as a list of `Int` (each entry an `int8_t` value); reads use
`List.getD` with default 0, matching a fixed-size C array whose
untouched cells hold whatever was there before. -/

def CSI_BUFFER_SIZE : Nat := 128

structure CsiState where
  buffer : List Int
  len : Nat
  timestamp : Nat
  rssi : Int
  deriving Repr, DecidableEq

/-- One `wifi_csi_info_t` delivery: payload bytes, receive RSSI, and the
`esp_log_timestamp()` value at callback time. -/
structure CsiInfo where
  buf : List Int
  rssi : Int
  now : Nat
  deriving Repr, DecidableEq

/-- `memcpy(csi_data_buffer, info->buf, copy_len)`: the first
`copy_len` cells are overwritten, the rest of the array keeps its old
contents. -/
def overwritePrefix (newBytes old : List Int) : List Int :=
  newBytes ++ old.drop newBytes.length

/-- `wifi_csi_rx_cb`: ignore empty deliveries; otherwise copy at most
`CSI_BUFFER_SIZE * 2` bytes into the single shared slot and record
length, timestamp and RSSI. -/
def wifi_csi_rx_cb (info : CsiInfo) (s : CsiState) : CsiState :=
  if info.buf.length = 0 then s
  else
    let copy_len := min info.buf.length (CSI_BUFFER_SIZE * 2)
    { buffer := overwritePrefix (info.buf.take copy_len) s.buffer
      len := copy_len
      timestamp := info.now
      rssi := info.rssi }

/-- The JSON object built by `send_csi_data`:
`{"type":"csi","timestamp":…,"rssi":…,"len":…,"amplitudes":[…]}`. -/
structure CsiMessage where
  type : String
  timestamp : Nat
  rssi : Int
  len : Nat
  amplitudes : List Nat
  deriving Repr, DecidableEq

/-- Amplitude of the i-th I/Q pair:
`(int)sqrtf((float)(real*real + imag*imag))`.  For `int8_t` inputs the
squared sum is at most 2·128², where a correctly rounded single-precision
square root truncated by the `(int)` cast coincides with the integer
square root `Nat.sqrt`. -/
def pairAmplitude (buffer : List Int) (i : Nat) : Nat :=
  let real := buffer.getD (i * 2) 0
  let imag := buffer.getD (i * 2 + 1) 0
  Nat.sqrt (real * real + imag * imag).toNat

/-- The amplitude array: one entry per `i < csi_data_len / 2`. -/
def amplitudeList (buffer : List Int) (len : Nat) : List Nat :=
  (List.range (len / 2)).map (pairAmplitude buffer)

/-- `send_csi_data` (connected case): returns `none` when
`csi_data_len == 0`, otherwise the JSON telemetry message built from the
stored sample. -/
def send_csi_data (s : CsiState) : Option CsiMessage :=
  if s.len = 0 then none
  else some
    { type := "csi"
      timestamp := s.timestamp
      rssi := s.rssi
      len := s.len
      amplitudes := amplitudeList s.buffer s.len }

/-! ## Firmware WebSocket text-message handler
(`on_ws_event`, `WEBSOCKET_EVENT_DATA` text branch, and
`send_error_response`, src/unnamed/part_001)

A text frame is parsed with `cJSON_Parse`; parse failure is modelled as
`none`.  A successfully parsed object is modelled by the values
`cJSON_GetObjectItemCaseSensitive` returns for the four recognized
fields `brightness`, `contrast`, `saturation`, `quality` (other fields
of the object are never consulted).  The camera sensor is modelled by
its four adjustable parameters; the `esp_camera_sensor_get() == NULL`
failure path is out of scope (the sensor is assumed available). -/

/-- A cJSON item as the handler distinguishes it: a number (with its
`valueint`), or anything that fails `cJSON_IsNumber`. -/
inductive JVal where
  | num (n : Int)
  | notNum
  deriving Repr, DecidableEq

/-- The four recognized fields of a parsed camera-control object,
`none` when `cJSON_GetObjectItemCaseSensitive` finds no such member. -/
structure CameraCmd where
  brightness : Option JVal
  contrast : Option JVal
  saturation : Option JVal
  quality : Option JVal
  deriving Repr, DecidableEq

structure SensorState where
  brightness : Int
  contrast : Int
  saturation : Int
  quality : Int
  deriving Repr, DecidableEq

/-- A JSON reply object `{"status":…,"message":…}`. -/
structure Reply where
  status : String
  message : String
  deriving Repr, DecidableEq

/-- `send_error_response`: builds `{"status":"error","message":…}`. -/
def send_error_response (message : String) : Reply :=
  { status := "error", message := message }

def numericFieldError (field : String) : Reply :=
  send_error_response ("Field \x27" ++ field ++ "\x27 must be numeric")

/-- One per-field block of `on_ws_event`: absent field is skipped,
a non-numeric field aborts with an error naming the field, a numeric
field is applied through the sensor setter and sets `updated`. -/
def applyField (field : Option JVal) (name : String)
    (setter : SensorState → Int → SensorState)
    (cur : SensorState × Bool) :
    Except (SensorState × Reply) (SensorState × Bool) :=
  match field with
  | none => .ok cur
  | some (.num n) => .ok (setter cur.1 n, true)
  | some .notNum => .error (cur.1, numericFieldError name)

def set_brightness (s : SensorState) (n : Int) : SensorState :=
  { s with brightness := n }

def set_contrast (s : SensorState) (n : Int) : SensorState :=
  { s with contrast := n }

def set_saturation (s : SensorState) (n : Int) : SensorState :=
  { s with saturation := n }

def set_quality (s : SensorState) (n : Int) : SensorState :=
  { s with quality := n }

/-- The valid-JSON part of the handler: process the four fields in the
source's fixed order with early return on the first non-numeric one,
then acknowledge, or reject a message carrying none of the fields. -/
def on_ws_cmd (cmd : CameraCmd) (s : SensorState) : SensorState × Reply :=
  match applyField cmd.brightness "brightness" set_brightness (s, false) with
  | .error r => r
  | .ok c1 =>
  match applyField cmd.contrast "contrast" set_contrast c1 with
  | .error r => r
  | .ok c2 =>
  match applyField cmd.saturation "saturation" set_saturation c2 with
  | .error r => r
  | .ok c3 =>
  match applyField cmd.quality "quality" set_quality c3 with
  | .error r => r
  | .ok c4 =>
    if c4.2 then
      (c4.1, { status := "ok", message := "Camera parameters updated" })
    else
      (c4.1, send_error_response "No supported camera fields in JSON payload")

/-- Outcome of the text branch of `on_ws_event`: the sensor state when
the handler returns, the reply it sent (if any), and whether the
WebSocket connection is still open (the handler never closes it; every
path ends in `return` or `break` back to the event loop). -/
structure HandlerResult where
  sensor : SensorState
  reply : Option Reply
  connectionOpen : Bool
  deriving Repr, DecidableEq

/-- `on_ws_event`, `WEBSOCKET_EVENT_DATA` with a text frame:
`cJSON_Parse` failure sends `"Invalid JSON payload"` and returns;
otherwise the camera-control fields are processed. -/
def on_ws_text (parsed : Option CameraCmd) (s : SensorState) : HandlerResult :=
  match parsed with
  | none =>
      { sensor := s
        reply := some (send_error_response "Invalid JSON payload")
        connectionOpen := true }
  | some cmd =>
      let (s', reply) := on_ws_cmd cmd s
      { sensor := s', reply := some reply, connectionOpen := true }

/-! ## Dashboard data model (src/gui/src/types/index.ts) -/

/-- `Detection`: one detector output row. `confidence` is a float in
the source, modelled exactly as `ℚ`. -/
structure Detection where
  class_id : Int
  class_name : String
  confidence : ℚ
  bbox : List ℚ
  deriving Repr, DecidableEq

/-- `CountResult`: one processed-image result. -/
structure CountResult where
  success : Bool
  people_count : Nat
  detections : List Detection
  message : Option String
  output_image_path : Option String
  timestamp : Option String
  deriving Repr, DecidableEq

/-- `Math.max(...)` over a non-empty argument list (the source always
guards the spread with a non-emptiness check). -/
def listMax (l : List ℚ) : ℚ :=
  match l with
  | [] => 0
  | h :: t => t.foldl max h

/-- `Math.min(...)` over a non-empty argument list. -/
def listMin (l : List ℚ) : ℚ :=
  match l with
  | [] => 0
  | h :: t => t.foldl min h

def listMaxNat (l : List Nat) : Nat :=
  match l with
  | [] => 0
  | h :: t => t.foldl max h

def listMinNat (l : List Nat) : Nat :=
  match l with
  | [] => 0
  | h :: t => t.foldl min h

/-! ## StatsPanel (src/server_side/frontend/src/components/StatsPanel.tsx) -/

/-- JavaScript `String.prototype.toLowerCase()` restricted to the
class-name alphabet in play: character-wise lowercasing. -/
def jsToLower (s : String) : String := ⟨s.data.map Char.toLower⟩

/-- The session-statistics record computed by the `stats` memo. -/
structure SessionStats where
  totalPeopleDetected : Nat
  averageConfidence : ℚ
  totalImages : Nat
  averagePeoplePerImage : ℚ
  maxPeopleInImage : Nat
  minPeopleInImage : Nat
  deriving Repr, DecidableEq

/-- `stats` memo: early-returns an all-zero record on an empty history,
otherwise sums people counts, averages all detection confidences
(guarding the division by the number of confidences), and takes
min/max of the per-image people counts. -/
def stats (history : List CountResult) : SessionStats :=
  if history.length = 0 then
    { totalPeopleDetected := 0
      averageConfidence := 0
      totalImages := 0
      averagePeoplePerImage := 0
      maxPeopleInImage := 0
      minPeopleInImage := 0 }
  else
    let totalPeopleDetected := (history.map (·.people_count)).sum
    let allConfidences :=
      (history.map (fun h => h.detections.map (·.confidence))).flatten
    let averageConfidence :=
      if allConfidences.length > 0 then
        allConfidences.sum / (allConfidences.length : ℚ)
      else 0
    let peopleCounts := history.map (·.people_count)
    { totalPeopleDetected := totalPeopleDetected
      averageConfidence := averageConfidence
      totalImages := history.length
      averagePeoplePerImage := (totalPeopleDetected : ℚ) / (history.length : ℚ)
      maxPeopleInImage := listMaxNat peopleCounts
      minPeopleInImage := listMinNat peopleCounts }

/-- The current-image statistics record computed by the `currentStats`
memo. -/
structure CurrentStats where
  avgConfidence : ℚ
  maxConfidence : ℚ
  minConfidence : ℚ
  personDetections : Nat
  deriving Repr, DecidableEq

/-- `currentStats` memo: `null` without a result; otherwise confidence
aggregates over the result's detections (each guarded against the empty
list) and the count of detections whose
`class_name.toLowerCase() === "person"`. -/
def currentStats (result : Option CountResult) : Option CurrentStats :=
  match result with
  | none => none
  | some r =>
    let confidences := r.detections.map (·.confidence)
    let avgConf :=
      if confidences.length > 0 then
        confidences.sum / (confidences.length : ℚ)
      else 0
    let maxConf := if confidences.length > 0 then listMax confidences else 0
    let minConf := if confidences.length > 0 then listMin confidences else 0
    some
      { avgConfidence := avgConf
        maxConfidence := maxConf
        minConfidence := minConf
        personDetections :=
          (r.detections.filter
            (fun d => jsToLower d.class_name == "person")).length }

/-! ## Upload history (src/server_side/frontend/src/app/page.tsx,
`handleResult`; identical in the gui variant) -/

/-- The `setHistory` update inside `handleResult`:
`[{...newResult, timestamp: new Date().toISOString()}, ...prev.slice(0, 9)]`. -/
def handleResultHistory (newResult : CountResult) (ts : String)
    (prev : List CountResult) : List CountResult :=
  { newResult with timestamp := some ts } :: prev.take 9

/-! ## Live-stream client
(src/server_side/frontend/src/components/LiveVideoStream.tsx) -/

/-- `StreamData`: the JSON body of `GET /api/v1/stream/frame` as the
client declares it. -/
structure StreamData where
  success : Bool
  frame_base64 : Option String
  people_count : Nat
  detections : List Detection
  timestamp : Option String
  camera_id : Option String
  deriving Repr, DecidableEq

/-- The field names of the `StreamData` interface declaration, in
source order (LiveVideoStream.tsx lines 6–13). -/
def streamDataFields : List String :=
  ["success", "frame_base64", "people_count", "detections",
   "timestamp", "camera_id"]

/-- The component state `fetchFrame` reads and writes. -/
structure ClientState where
  streamData : Option StreamData
  isConnected : Bool
  error : Option String
  lastUpdate : Option Nat
  deriving Repr, DecidableEq

/-- One `fetchFrame` round trip: either a parsed `StreamData` body, or
the catch branch (network error or non-OK HTTP status, which the code
turns into a thrown error). -/
inductive FetchOutcome where
  | ok (data : StreamData)
  | failure
  deriving Repr, DecidableEq

/-- `fetchFrame`: a successful body with a frame replaces the snapshot
and marks the client connected; a successful body without a frame only
marks connected and shows a waiting message; any fetch failure marks
disconnected with an error message and leaves the last snapshot in
place.  (`data.success === false` takes no branch at all.) -/
def fetchFrame (o : FetchOutcome) (now : Nat) (st : ClientState) :
    ClientState :=
  match o with
  | .ok data =>
    if data.success && data.frame_base64.isSome then
      { streamData := some data
        isConnected := true
        error := none
        lastUpdate := some now }
    else if data.success && data.frame_base64.isNone then
      { st with
          isConnected := true
          error := some "Waiting for camera stream..." }
    else st
  | .failure =>
      { st with
          isConnected := false
          error := some "Cannot connect to server" }

/-! ## Fusion engine -/

/-- Modelled from the spec: the Fusion Engine (§4.5) lives in the edge
server (`edge_side/infra/ws_server.py`) / backend fusion endpoint,
whose source is not available here — only the dashboard's `FusionData`
consumer view is.  Per the spec's data model (§3), a `FusionResult`
records both per-source counts, the fused count, and the two weights it
used. -/
structure FusionResult where
  camera_count : ℚ
  csi_count : ℚ
  fused_count : ℚ
  camera_weight : ℚ
  csi_weight : ℚ
  timestamp : Nat
  deriving Repr, DecidableEq

/-- Modelled from the spec: the default camera weight of the 0.8/0.2
split (§3: "weights sum to 1.0, default 0.8/0.2"). -/
def defaultCameraWeight : ℚ := 4/5

/-- Modelled from the spec: the fusion computation (§4.5).  The
configuration carries one camera weight; the CSI weight is its
complement so that the two always sum to 1, and
`fused_count = camera_weight*camera_count + csi_weight*csi_count`. -/
def computeFusion (cameraCount csiCount : ℚ) (cameraWeight : ℚ)
    (ts : Nat) : FusionResult :=
  { camera_count := cameraCount
    csi_count := csiCount
    camera_weight := cameraWeight
    csi_weight := 1 - cameraWeight
    fused_count := cameraWeight * cameraCount
      + (1 - cameraWeight) * csiCount
    timestamp := ts }

/-! ## Derived descriptions of the camera-control handler, used to
state its specification -/

/-- A field is unobjectionable when absent or numeric. -/
def fieldOk : Option JVal → Bool
  | none => true
  | some (.num _) => true
  | some .notNum => false

def allFieldsOk (cmd : CameraCmd) : Bool :=
  fieldOk cmd.brightness && fieldOk cmd.contrast
    && fieldOk cmd.saturation && fieldOk cmd.quality

def anyFieldPresent (cmd : CameraCmd) : Bool :=
  cmd.brightness.isSome || cmd.contrast.isSome
    || cmd.saturation.isSome || cmd.quality.isSome

/-- Apply one field to the sensor when present and numeric. -/
def applyPresent (field : Option JVal)
    (setter : SensorState → Int → SensorState) (s : SensorState) :
    SensorState :=
  match field with
  | some (.num n) => setter s n
  | _ => s

/-- Apply the four fields in the handler's order. -/
def applyAll (cmd : CameraCmd) (s : SensorState) : SensorState :=
  applyPresent cmd.quality set_quality
    (applyPresent cmd.saturation set_saturation
      (applyPresent cmd.contrast set_contrast
        (applyPresent cmd.brightness set_brightness s)))

/-- The first present-but-non-numeric field in the handler's fixed
processing order, if any. -/
def firstBadField (cmd : CameraCmd) : Option String :=
  if cmd.brightness = some .notNum then some "brightness"
  else if cmd.contrast = some .notNum then some "contrast"
  else if cmd.saturation = some .notNum then some "saturation"
  else if cmd.quality = some .notNum then some "quality"
  else none

/-- Apply exactly the fields that strictly precede field `f` in the
handler's order. -/
def applyBefore (cmd : CameraCmd) (f : String) (s : SensorState) :
    SensorState :=
  if f = "brightness" then s
  else if f = "contrast" then
    applyPresent cmd.brightness set_brightness s
  else if f = "saturation" then
    applyPresent cmd.contrast set_contrast
      (applyPresent cmd.brightness set_brightness s)
  else
    applyPresent cmd.saturation set_saturation
      (applyPresent cmd.contrast set_contrast
        (applyPresent cmd.brightness set_brightness s))

/-! ## Theorems -/

/-- Reading inside the freshly copied prefix is unaffected by the old
buffer contents. -/
theorem pairAmplitude_overwrite (newBytes old : List Int) (i : Nat)
    (h : i * 2 + 1 < newBytes.length) :
    pairAmplitude (overwritePrefix newBytes old) i
      = pairAmplitude newBytes i := by
  unfold pairAmplitude overwritePrefix
  rw [List.getD_append _ _ _ _ (by omega), List.getD_append _ _ _ _ h]

/-- The amplitude array computed over a stored sample of `len` bytes
depends only on the freshly copied prefix. -/
theorem amplitudeList_overwrite (newBytes old : List Int) (len : Nat)
    (h : len ≤ newBytes.length) :
    amplitudeList (overwritePrefix newBytes old) len
      = amplitudeList newBytes len := by
  unfold amplitudeList
  apply List.map_congr_left
  intro i hi
  rw [List.mem_range] at hi
  exact pairAmplitude_overwrite _ _ _ (by omega)

/-- C1: every `FusionResult` records weights summing to 1 (default
0.8/0.2) and a fused count equal to
`camera_weight*camera_count + csi_weight*csi_count` computed from the
counts and weights recorded in that same result. -/
theorem fusionResult_internally_consistent (cc csi w : ℚ) (ts : Nat) :
    (computeFusion cc csi w ts).camera_weight
        + (computeFusion cc csi w ts).csi_weight = 1
    ∧ (computeFusion cc csi w ts).fused_count
        = (computeFusion cc csi w ts).camera_weight
            * (computeFusion cc csi w ts).camera_count
          + (computeFusion cc csi w ts).csi_weight
            * (computeFusion cc csi w ts).csi_count
    ∧ (w = defaultCameraWeight →
        (computeFusion cc csi w ts).camera_weight = 4/5
        ∧ (computeFusion cc csi w ts).csi_weight = 1/5) := by
  refine ⟨by simp [computeFusion], rfl, ?_⟩
  rintro rfl
  constructor <;> norm_num [computeFusion, defaultCameraWeight]

theorem fusionResult_internally_consistent_witness :
    (computeFusion 5 2 defaultCameraWeight 0).camera_weight = 4/5
    ∧ (computeFusion 5 2 defaultCameraWeight 0).csi_weight = 1/5 :=
  (fusionResult_internally_consistent 5 2 defaultCameraWeight 0).2.2 rfl

/-- C3: an inbound text message that is not valid JSON draws the reply
`{"status":"error","message":…}`, changes no camera-sensor parameter,
and leaves the WebSocket connection open. -/
theorem malformed_json_is_acked_and_session_continues (s : SensorState) :
    (on_ws_text none s).reply
        = some (send_error_response "Invalid JSON payload")
    ∧ (send_error_response "Invalid JSON payload").status = "error"
    ∧ (on_ws_text none s).sensor = s
    ∧ (on_ws_text none s).connectionOpen = true :=
  ⟨rfl, rfl, rfl, rfl⟩

/-- C6 counterexample: the latest-snapshot pull response, as the client
declares it (`StreamData`), has no `connected` field, so the response
does not carry a connected flag. -/
theorem streamData_has_no_connected_field :
    "connected" ∉ streamDataFields := by decide

/-- C6 (amended): the pull response contains exactly the fields
`success`, `frame_base64`, `people_count`, `detections`, `timestamp`,
`camera_id` — no connected flag; the client itself tracks connectivity,
and a failed fetch (server/device unreachable) sets its local
`isConnected` to false while retaining the last-known snapshot. -/
theorem stream_shape_and_disconnect_retention (st : ClientState)
    (now : Nat) :
    streamDataFields
      = ["success", "frame_base64", "people_count", "detections",
         "timestamp", "camera_id"]
    ∧ (fetchFrame .failure now st).streamData = st.streamData
    ∧ (fetchFrame .failure now st).isConnected = false
    ∧ (fetchFrame .failure now st).lastUpdate = st.lastUpdate :=
  ⟨rfl, rfl, rfl, rfl⟩

/-- C7: the displayed person-class count equals the number of
detections whose class name equals "person" up to case, whatever other
classes appear. -/
theorem person_count_is_case_insensitive_person_filter (r : CountResult) :
    (currentStats (some r)).map (·.personDetections)
      = some ((r.detections.filter
          (fun d => jsToLower d.class_name == jsToLower "person")).length) := by
  have h : jsToLower "person" = "person" := by decide
  simp only [currentStats, h, Option.map_some']

/-- C9: after a processed upload result, the history holds at most 10
entries, newest (restamped) first, retaining only the first 9 previous
entries. -/
theorem history_bounded_newest_first (n : CountResult) (ts : String)
    (prev : List CountResult) :
    (handleResultHistory n ts prev).length ≤ 10
    ∧ (handleResultHistory n ts prev).length = 1 + min prev.length 9
    ∧ (handleResultHistory n ts prev).head?
        = some { n with timestamp := some ts }
    ∧ (handleResultHistory n ts prev).tail = prev.take 9 := by
  refine ⟨?_, ?_, rfl, rfl⟩ <;>
    (simp only [handleResultHistory, List.length_cons, List.length_take]
     omega)

/-- C10: the statistics are total on empty inputs: an empty history
yields the all-zero session statistics, and a result with no detections
yields 0 average, maximum and minimum confidence. -/
theorem stats_total_on_empty_inputs (r : CountResult)
    (hdet : r.detections = []) :
    stats []
      = { totalPeopleDetected := 0
          averageConfidence := 0
          totalImages := 0
          averagePeoplePerImage := 0
          maxPeopleInImage := 0
          minPeopleInImage := 0 }
    ∧ (currentStats (some r)).map
          (fun c => (c.avgConfidence, c.maxConfidence, c.minConfidence))
        = some (0, 0, 0) := by
  refine ⟨rfl, ?_⟩
  simp [currentStats, hdet]

theorem stats_total_on_empty_inputs_witness :
    (currentStats (some
        { success := true, people_count := 0, detections := []
          message := none, output_image_path := none, timestamp := none })).map
          (fun c => (c.avgConfidence, c.maxConfidence, c.minConfidence))
      = some (0, 0, 0) :=
  (stats_total_on_empty_inputs
    { success := true, people_count := 0, detections := []
      message := none, output_image_path := none, timestamp := none } rfl).2

/-- C4: a valid-JSON camera-control message with at least one
recognized field, all present ones numeric, applies every present field
and is acknowledged with `ok`; a present non-numeric recognized field
draws an error naming it; a message with no recognized field draws the
no-supported-fields error. -/
theorem camera_control_reply_spec (cmd : CameraCmd) (s : SensorState) :
    (allFieldsOk cmd = true → anyFieldPresent cmd = true →
      on_ws_cmd cmd s =
        (applyAll cmd s,
          { status := "ok", message := "Camera parameters updated" }))
    ∧ (anyFieldPresent cmd = false →
      on_ws_cmd cmd s =
        (s, send_error_response "No supported camera fields in JSON payload"))
    ∧ (∀ f, firstBadField cmd = some f →
        (on_ws_cmd cmd s).2 = numericFieldError f) := by
  obtain ⟨b, c, sa, q⟩ := cmd
  rcases b with _ | (⟨bn⟩ | _) <;> rcases c with _ | (⟨cn⟩ | _) <;>
    rcases sa with _ | (⟨sn⟩ | _) <;> rcases q with _ | (⟨qn⟩ | _) <;>
    simp [on_ws_cmd, applyField, allFieldsOk, anyFieldPresent, applyAll,
      applyPresent, firstBadField, fieldOk]

theorem camera_control_reply_spec_witness :
    (on_ws_cmd
        { brightness := some (.num 3), contrast := none
          saturation := some (.num (-1)), quality := none }
        { brightness := 0, contrast := 0, saturation := 0, quality := 10 }
      = ({ brightness := 3, contrast := 0, saturation := -1, quality := 10 },
         { status := "ok", message := "Camera parameters updated" }))
    ∧ (on_ws_cmd
        { brightness := none, contrast := none
          saturation := none, quality := none }
        { brightness := 0, contrast := 0, saturation := 0, quality := 10 }
      = ({ brightness := 0, contrast := 0, saturation := 0, quality := 10 },
         send_error_response "No supported camera fields in JSON payload"))
    ∧ (on_ws_cmd
        { brightness := none, contrast := some .notNum
          saturation := none, quality := none }
        { brightness := 0, contrast := 0, saturation := 0, quality := 10 }).2
      = numericFieldError "contrast" :=
  ⟨((camera_control_reply_spec
      { brightness := some (.num 3), contrast := none
        saturation := some (.num (-1)), quality := none }
      { brightness := 0, contrast := 0, saturation := 0, quality := 10 }).1
      (by decide) (by decide)).trans (by decide),
   ((camera_control_reply_spec
      { brightness := none, contrast := none
        saturation := none, quality := none }
      { brightness := 0, contrast := 0, saturation := 0, quality := 10 }).2.1
      (by decide)),
   ((camera_control_reply_spec
      { brightness := none, contrast := some .notNum
        saturation := none, quality := none }
      { brightness := 0, contrast := 0, saturation := 0, quality := 10 }).2.2
      "contrast" (by decide))⟩

/-- C8: when a later recognized field is non-numeric, the error names
that field but every present numeric field preceding it in the order
brightness, contrast, saturation, quality has already been applied;
nothing is rolled back. -/
theorem camera_control_partial_application (cmd : CameraCmd)
    (s : SensorState) (f : String) (h : firstBadField cmd = some f) :
    on_ws_cmd cmd s = (applyBefore cmd f s, numericFieldError f) := by
  obtain ⟨b, c, sa, q⟩ := cmd
  rcases b with _ | (⟨bn⟩ | _) <;> rcases c with _ | (⟨cn⟩ | _) <;>
    rcases sa with _ | (⟨sn⟩ | _) <;> rcases q with _ | (⟨qn⟩ | _) <;>
    (simp [firstBadField] at h; try subst h) <;>
    simp [on_ws_cmd, applyField, applyBefore, applyPresent]

theorem camera_control_partial_application_witness :
    on_ws_cmd
        { brightness := some (.num 7), contrast := some (.num 2)
          saturation := some .notNum, quality := some (.num 1) }
        { brightness := 0, contrast := 0, saturation := 0, quality := 0 }
      = ({ brightness := 7, contrast := 2, saturation := 0, quality := 0 },
         numericFieldError "saturation") :=
  (camera_control_partial_application
      { brightness := some (.num 7), contrast := some (.num 2)
        saturation := some .notNum, quality := some (.num 1) }
      { brightness := 0, contrast := 0, saturation := 0, quality := 0 }
      "saturation" (by decide)).trans (by decide)

/-- C2: a CSI telemetry message carries exactly the fields
`type="csi"`, `timestamp`, `rssi`, `len` as stored by the most recent
callback, and an amplitude array of exactly `len / 2` entries, entry
`i` being the truncated magnitude `sqrt(I²+Q²)` of the i-th stored I/Q
byte pair. -/
theorem csi_telemetry_reflects_latest_callback (info : CsiInfo)
    (s : CsiState) (hbuf : info.buf.length ≠ 0) :
    ∃ m, send_csi_data (wifi_csi_rx_cb info s) = some m
      ∧ m.type = "csi"
      ∧ m.timestamp = (wifi_csi_rx_cb info s).timestamp
      ∧ m.rssi = (wifi_csi_rx_cb info s).rssi
      ∧ m.len = (wifi_csi_rx_cb info s).len
      ∧ m.amplitudes.length = (wifi_csi_rx_cb info s).len / 2
      ∧ ∀ i, i < (wifi_csi_rx_cb info s).len / 2 →
          m.amplitudes[i]? = some (Nat.sqrt
            ((wifi_csi_rx_cb info s).buffer.getD (i * 2) 0
                * (wifi_csi_rx_cb info s).buffer.getD (i * 2) 0
              + (wifi_csi_rx_cb info s).buffer.getD (i * 2 + 1) 0
                * (wifi_csi_rx_cb info s).buffer.getD (i * 2 + 1) 0).toNat) := by
  have hlen : (wifi_csi_rx_cb info s).len ≠ 0 := by
    unfold wifi_csi_rx_cb
    rw [if_neg hbuf]
    show min info.buf.length (CSI_BUFFER_SIZE * 2) ≠ 0
    have hb : CSI_BUFFER_SIZE * 2 = 256 := rfl
    omega
  have hsend : send_csi_data (wifi_csi_rx_cb info s)
      = some
        { type := "csi"
          timestamp := (wifi_csi_rx_cb info s).timestamp
          rssi := (wifi_csi_rx_cb info s).rssi
          len := (wifi_csi_rx_cb info s).len
          amplitudes := amplitudeList (wifi_csi_rx_cb info s).buffer
            (wifi_csi_rx_cb info s).len } := by
    unfold send_csi_data
    rw [if_neg hlen]
  refine ⟨_, hsend, rfl, rfl, rfl, rfl, ?_, ?_⟩
  · simp [amplitudeList]
  · intro i hi
    simp [amplitudeList, List.getElem?_map, List.getElem?_range hi,
      pairAmplitude]

theorem csi_telemetry_reflects_latest_callback_witness :
    (2 : Nat) ≠ 0
    ∧ ∃ m, send_csi_data (wifi_csi_rx_cb
          { buf := [3, 4], rssi := -40, now := 17 }
          { buffer := [], len := 0, timestamp := 0, rssi := 0 })
        = some m ∧ m.type = "csi" ∧ m.len = 2
        ∧ m.amplitudes[0]? = some 5 := by
  have h := csi_telemetry_reflects_latest_callback
    { buf := [3, 4], rssi := -40, now := 17 }
    { buffer := [], len := 0, timestamp := 0, rssi := 0 }
    (by decide)
  obtain ⟨m, hsend, htype, _, _, hlen, _, hamp⟩ := h
  refine ⟨by decide, m, hsend, htype, ?_, ?_⟩
  · rw [hlen]; decide
  · have h0 := hamp 0 (by decide)
    rw [h0]
    have h25 : ((wifi_csi_rx_cb { buf := [3, 4], rssi := -40, now := 17 }
        { buffer := [], len := 0, timestamp := 0, rssi := 0 }).buffer.getD
          (0 * 2) 0
        * (wifi_csi_rx_cb { buf := [3, 4], rssi := -40, now := 17 }
            { buffer := [], len := 0, timestamp := 0, rssi := 0 }).buffer.getD
          (0 * 2) 0
      + (wifi_csi_rx_cb { buf := [3, 4], rssi := -40, now := 17 }
            { buffer := [], len := 0, timestamp := 0, rssi := 0 }).buffer.getD
          (0 * 2 + 1) 0
        * (wifi_csi_rx_cb { buf := [3, 4], rssi := -40, now := 17 }
            { buffer := [], len := 0, timestamp := 0, rssi := 0 }).buffer.getD
          (0 * 2 + 1) 0).toNat = 5 * 5 := by decide
    rw [h25, Nat.sqrt_eq]

/-- C5: the CSI path is a single-slot latest-wins mailbox: a callback
copies at most `CSI_BUFFER_SIZE * 2` bytes (never past the buffer end),
and what `send_csi_data` transmits after a callback depends only on
that latest delivery — any earlier stored sample is discarded, never
queued. -/
theorem csi_single_slot_latest_wins (info : CsiInfo) (s s' : CsiState)
    (h : info.buf.length ≠ 0) :
    (wifi_csi_rx_cb info s).len ≤ CSI_BUFFER_SIZE * 2
    ∧ (s.buffer.length = CSI_BUFFER_SIZE * 2 →
        (wifi_csi_rx_cb info s).buffer.length = CSI_BUFFER_SIZE * 2)
    ∧ send_csi_data (wifi_csi_rx_cb info s)
        = send_csi_data (wifi_csi_rx_cb info s') := by
  unfold wifi_csi_rx_cb
  rw [if_neg h, if_neg h]
  refine ⟨min_le_right _ _, ?_, ?_⟩
  · intro hlen
    simp [overwritePrefix, List.length_append, List.length_drop,
      List.length_take, hlen]
  · unfold send_csi_data
    simp only
    rw [amplitudeList_overwrite _ _ _ (by simp [List.length_take]),
      amplitudeList_overwrite _ _ _ (by simp [List.length_take])]

theorem csi_single_slot_latest_wins_witness :
    (wifi_csi_rx_cb { buf := [3, 4], rssi := -40, now := 17 }
        { buffer := [], len := 0, timestamp := 0, rssi := 0 }).len
      ≤ CSI_BUFFER_SIZE * 2
    ∧ send_csi_data (wifi_csi_rx_cb
          { buf := [3, 4], rssi := -40, now := 17 }
          { buffer := [7, 7, 7, 7], len := 4, timestamp := 1, rssi := -1 })
      = send_csi_data (wifi_csi_rx_cb
          { buf := [3, 4], rssi := -40, now := 17 }
          { buffer := [], len := 0, timestamp := 0, rssi := 0 }) := by
  have h := csi_single_slot_latest_wins
    { buf := [3, 4], rssi := -40, now := 17 }
    { buffer := [7, 7, 7, 7], len := 4, timestamp := 1, rssi := -1 }
    { buffer := [], len := 0, timestamp := 0, rssi := 0 }
    (by decide)
  have h' := csi_single_slot_latest_wins
    { buf := [3, 4], rssi := -40, now := 17 }
    { buffer := [], len := 0, timestamp := 0, rssi := 0 }
    { buffer := [], len := 0, timestamp := 0, rssi := 0 }
    (by decide)
  exact ⟨h'.1, h.2.2⟩

end PeopleCounting
